import Mathlib

/-!
Shallow embedding of the domdropio domain-scoring engine.

The definitions below translate the scoring code of the repository:
`src/lib/quickAnalyzer.ts` (InstantTrafficAnalyzer, HybridAnalyzer),
`src/lib/trafficAnalyzer.ts` (TrafficAnalyzer),
`scripts/trafficDetector.js` (AdvancedTrafficDetector), the
`supabase/functions/analyze-domain` handler and the `domains` table
status check constraint.  Network probes are parametrized by their
already-normalized results; `Math.random()*k` is parametrized by a
jitter source `rand : Nat -> Nat` where `rand k` stands for
`Math.floor(Math.random()*k)`.
-/

/-- JavaScript `Math.round`: round half toward positive infinity. -/
def jsRound (x : ℚ) : ℤ := ⌊x + 1/2⌋

/-- `startsWithList hay pat` is true when `pat` is an initial segment of `hay`. -/
def startsWithList : List Char → List Char → Bool
  | _, [] => true
  | [], _ :: _ => false
  | h :: hs, p :: ps => h == p && startsWithList hs ps

/-- `containsList hay pat`: JavaScript `hay.includes(pat)` on character lists. -/
def containsList : List Char → List Char → Bool
  | [], pat => startsWithList [] pat
  | h :: t, pat => startsWithList (h :: t) pat || containsList t pat

/-- `endsWithList hay pat`: JavaScript `hay.endsWith(pat)` on character lists. -/
def endsWithList (hay pat : List Char) : Bool :=
  startsWithList hay.reverse pat.reverse

/-- JavaScript `toLowerCase` on character lists (ASCII). -/
def toLowerList (l : List Char) : List Char := l.map Char.toLower

/-- Four digits at the head of a character list. -/
def fourDigitsAtHead : List Char → Bool
  | a :: b :: c :: d :: _ => a.isDigit && b.isDigit && c.isDigit && d.isDigit
  | _ => false

/-- Test for the regex `[0-9]{4}`: four consecutive digits somewhere. -/
def hasFourConsecutiveDigits : List Char → Bool
  | [] => false
  | a :: t => fourDigitsAtHead (a :: t) || hasFourConsecutiveDigits t

/-- Case-insensitive substring containment, the relation the spec uses for
parking phrases. -/
def containsCI (hay pat : String) : Bool :=
  containsList (toLowerList hay.data) (toLowerList pat.data)

/-- The analysis record shape of `src/types/analyzer.ts` (`DomainAnalysis`). -/
structure DomainAnalysis where
  domain : String
  status : String
  traffic_score : ℤ
  estimated_traffic : ℕ
  archive_snapshots : ℕ
  indexed_pages : ℕ
  social_mentions : ℕ
  web_presence : ℕ
  mail_score : ℚ
  has_redirect : Bool
  redirect_url : Option String
  is_parked : Bool
  last_checked : String
  deriving DecidableEq

/-- The record returned by `TrafficAnalyzer.analyzeDomain`. -/
structure TrafficAnalysisRecord where
  traffic_score : ℤ
  estimated_traffic : ℕ
  archive_snapshots : ℕ
  last_checked : String
  status : String
  deriving DecidableEq

/-- Result of `TrafficAnalyzer.checkDNS`. -/
structure DNSStatus where
  hasNameservers : Bool
  hasWebsite : Bool
  deriving DecidableEq

/-- Result of `TrafficAnalyzer.checkArchiveHistory`; `monthsAgo` abstracts
the age in months of `lastSeen` relative to now (`none` when `lastSeen`
is null). -/
structure ArchiveData where
  snapshots : ℕ
  recentSnapshots : ℕ
  monthsAgo : Option ℚ
  deriving DecidableEq

/-- The fixed TLD allow-list of `InstantTrafficAnalyzer`. -/
def InstantTrafficAnalyzer.KNOWN_TLDS : List String := [".com", ".net", ".org", ".io"]

/-- `InstantTrafficAnalyzer.estimateScore`: lexical heuristic score.
JavaScript `domain.split(".").length` equals the dot count plus one. -/
def InstantTrafficAnalyzer.estimateScore (domain : String) : ℤ :=
  let chars := domain.data
  let yearPattern : ℤ := if hasFourConsecutiveDigits chars then 10 else 0
  let tld : ℤ :=
    if InstantTrafficAnalyzer.KNOWN_TLDS.any (fun t => endsWithList chars t.data) then 20 else 0
  let lengthBonus : ℤ := if chars.length < 15 then 15 else 0
  let subdomains : ℤ := if chars.count '.' + 1 > 2 then -10 else 0
  let shopKeyword : ℤ := if containsList chars "shop".data then 5 else 0
  let blogKeyword : ℤ := if containsList chars "blog".data then 5 else 0
  let score := yearPattern + tld + lengthBonus + subdomains + shopKeyword + blogKeyword
  max 0 (min score 100)

/-- `InstantTrafficAnalyzer.estimateTraffic`: bucket table with jitter. -/
def InstantTrafficAnalyzer.estimateTraffic (rand : ℕ → ℕ) (score : ℤ) : ℕ :=
  if 90 ≤ score then 15000 + rand 5000
  else if 80 ≤ score then 10000 + rand 5000
  else if 70 ≤ score then 5000 + rand 5000
  else if 60 ≤ score then 2000 + rand 3000
  else if 50 ≤ score then 1000 + rand 1000
  else if 40 ≤ score then 500 + rand 500
  else if 30 ≤ score then 200 + rand 300
  else if 20 ≤ score then 50 + rand 150
  else if 10 ≤ score then rand 50
  else 0

/-- `InstantTrafficAnalyzer.analyze`: the instant, probe-free record. -/
def InstantTrafficAnalyzer.analyze (rand : ℕ → ℕ) (now : String) (domain : String) :
    DomainAnalysis :=
  let trafficScore := InstantTrafficAnalyzer.estimateScore domain
  { domain := domain
    status := "available"
    traffic_score := trafficScore
    estimated_traffic := InstantTrafficAnalyzer.estimateTraffic rand trafficScore
    archive_snapshots := 0
    indexed_pages := 0
    social_mentions := 0
    web_presence := 0
    mail_score := 0
    has_redirect := false
    redirect_url := none
    is_parked := false
    last_checked := now }

/-- `HybridAnalyzer.analyze` on a cache miss, parametrized by the DNS check
outcome `dnsActive` and the jitter source.  The traffic score multiplies the
instant score by 1.5 or 0.8 and rounds; `estimated_traffic` is taken from the
instant record unchanged. -/
def HybridAnalyzer.analyze (rand : ℕ → ℕ) (now : String) (domain : String)
    (dnsActive : Bool) : DomainAnalysis :=
  let instant := InstantTrafficAnalyzer.analyze rand now domain
  { instant with
    status := if dnsActive then "registered" else "available"
    traffic_score := jsRound ((instant.traffic_score : ℚ) * (if dnsActive then 3/2 else 4/5))
    estimated_traffic := instant.estimated_traffic
    archive_snapshots := rand 10
    indexed_pages := rand 100
    social_mentions := rand 50
    web_presence := rand 100
    mail_score := 0
    has_redirect := false
    redirect_url := none
    is_parked := false
    last_checked := now }

/-- `HybridAnalyzer.analyzeBatch`: process the domain list in groups of
`BATCH_SIZE = 3`, appending each group of results in order.  The per-domain
analysis is abstracted as `analyzeOne`. -/
def HybridAnalyzer.analyzeBatch (analyzeOne : String → DomainAnalysis) :
    List String → List DomainAnalysis
  | [] => []
  | d :: ds =>
      ((d :: ds).take 3).map analyzeOne ++
        HybridAnalyzer.analyzeBatch analyzeOne ((d :: ds).drop 3)
termination_by l => l.length
decreasing_by simp; omega

/-- `TrafficAnalyzer.calculateTrafficScore` (Scheme A): capped recent and
historical components, website bonus, recency tier, then
`Math.min(Math.round(score), 100)`. -/
def TrafficAnalyzer.calculateTrafficScore (recentSnapshots totalSnapshots : ℚ)
    (hasWebsite : Bool) (monthsAgo : Option ℚ) : ℤ :=
  let recent := min (recentSnapshots * 40) 40
  let historical := min (totalSnapshots * 40) 40
  let website : ℚ := if hasWebsite then 10 else 0
  let recency : ℚ :=
    match monthsAgo with
    | none => 0
    | some m => if m ≤ 1 then 10 else if m ≤ 3 then 5 else if m ≤ 6 then 2 else 0
  min (jsRound (recent + historical + website + recency)) 100

/-- `TrafficAnalyzer.estimateTraffic`: same bucket table as the instant
analyzer. -/
def TrafficAnalyzer.estimateTraffic (rand : ℕ → ℕ) (score : ℤ) : ℕ :=
  if 90 ≤ score then 15000 + rand 5000
  else if 80 ≤ score then 10000 + rand 5000
  else if 70 ≤ score then 5000 + rand 5000
  else if 60 ≤ score then 2000 + rand 3000
  else if 50 ≤ score then 1000 + rand 1000
  else if 40 ≤ score then 500 + rand 500
  else if 30 ≤ score then 200 + rand 300
  else if 20 ≤ score then 50 + rand 150
  else if 10 ≤ score then rand 50
  else 0

/-- Fallback of `TrafficAnalyzer.checkDNS` when the probe fails. -/
def TrafficAnalyzer.checkDNSFallback : DNSStatus :=
  { hasNameservers := false, hasWebsite := false }

/-- Fallback of `TrafficAnalyzer.checkArchiveHistory` when the probe fails. -/
def TrafficAnalyzer.checkArchiveHistoryFallback : ArchiveData :=
  { snapshots := 0, recentSnapshots := 0, monthsAgo := none }

/-- Happy path of `TrafficAnalyzer.analyzeDomain`, parametrized by the two
probe results (each probe already degrades to its fallback on failure). -/
def TrafficAnalyzer.analyzeDomain (rand : ℕ → ℕ) (now : String)
    (dnsStatus : DNSStatus) (archiveData : ArchiveData) : TrafficAnalysisRecord :=
  let trafficScore := TrafficAnalyzer.calculateTrafficScore
    (archiveData.recentSnapshots : ℚ) (archiveData.snapshots : ℚ)
    dnsStatus.hasWebsite archiveData.monthsAgo
  { traffic_score := trafficScore
    estimated_traffic := TrafficAnalyzer.estimateTraffic rand trafficScore
    archive_snapshots := archiveData.snapshots
    last_checked := now
    status := if dnsStatus.hasNameservers then "registered" else "available" }

/-- The record returned by the top-level catch of
`TrafficAnalyzer.analyzeDomain` when an error escapes probe isolation. -/
def TrafficAnalyzer.errorRecord (now : String) : TrafficAnalysisRecord :=
  { traffic_score := 0
    estimated_traffic := 0
    archive_snapshots := 0
    last_checked := now
    status := "error" }

/-- `AdvancedTrafficDetector.checkArchiveFrequency` success path: returns the
snapshot count within the last year and that count divided by 12. -/
def AdvancedTrafficDetector.checkArchiveFrequency (recentSnapshots : ℕ) : ℕ × ℚ :=
  (recentSnapshots, (recentSnapshots : ℚ) / 12)

/-- `AdvancedTrafficDetector.checkDnsMailConfiguration` success path: MX
records weigh 2 each, SPF TXT records 1.5 each, DMARC TXT records 1.5 each. -/
def AdvancedTrafficDetector.checkDnsMailConfiguration (mx spf dmarc : ℕ) : ℚ :=
  (mx : ℚ) * 2 + (spf : ℚ) * (3/2) + (dmarc : ℚ) * (3/2)

/-- The fixed parking-phrase list of
`AdvancedTrafficDetector.checkForParkedDomainSigns`. -/
def AdvancedTrafficDetector.parkingSigns : List String :=
  ["domain is for sale", "buy this domain", "domain parking",
   "domain registered", "domain owner", "domain expired",
   "parkingcrew", "sedoparking", "hugedomains", "undeveloped.com"]

/-- `AdvancedTrafficDetector.checkForParkedDomainSigns` on a 200 response
body: lower-case the content and look for any parking phrase. -/
def AdvancedTrafficDetector.checkForParkedDomainSigns (body : String) : Bool :=
  AdvancedTrafficDetector.parkingSigns.any
    (fun sign => containsList (toLowerList body.data) sign.data)

/-- The score aggregation of
`AdvancedTrafficDetector.calculate_comprehensive_traffic_score` (Scheme B):
capped archive, indexing and mail components, flat redirect and parked
bonuses, then `Math.min(finalScore, 100)` with no rounding. -/
def AdvancedTrafficDetector.calculate_comprehensive_traffic_score
    (archiveSnapshots archiveFrequency indexedPages mailScore : ℚ)
    (hasRedirect isParked : Bool) : ℚ :=
  let archiveScore := min (archiveSnapshots * (3/2)) 15 + min (archiveFrequency * 5) 10
  let indexingScore := min (indexedPages * (1/2)) 30
  let mailConfigScore := min (mailScore * 2) 25
  let redirectScore : ℚ := if hasRedirect then 10 else 0
  let parkedScore : ℚ := if isParked then 10 else 0
  min (archiveScore + indexingScore + mailConfigScore + redirectScore + parkedScore) 100

/-- The traffic estimation block of
`calculate_comprehensive_traffic_score` in `scripts/trafficDetector.js`. -/
def AdvancedTrafficDetector.estimated_traffic (rand : ℕ → ℕ) (finalScore : ℚ) : ℕ :=
  if 80 < finalScore then rand 15000 + 5000
  else if 60 < finalScore then rand 4000 + 1000
  else if 40 < finalScore then rand 900 + 100
  else if 20 < finalScore then rand 90 + 10
  else rand 10

/-- The update payload built by the `analyze-domain` edge function handler:
it spreads the analysis record, then overwrites `status` with the literal
string "available" and `last_checked` with the current time. -/
def analyzeDomainHandlerUpdate (analysis : TrafficAnalysisRecord) (now : String) :
    TrafficAnalysisRecord :=
  { analysis with status := "available", last_checked := now }

/-- The `domains_status_check` constraint of the `domains` table:
`status IN ('available', 'pending', 'registered', 'expired')`. -/
def domainsStatusCheck (status : String) : Bool :=
  status ∈ ["available", "pending", "registered", "expired"]

/-- The lexical score described by the spec: the six feature bonuses summed
and clamped to the interval `[0, 100]`. -/
def lexicalScoreSpec (domain : String) : ℤ :=
  let features : List ℤ :=
    [if hasFourConsecutiveDigits domain.data then 10 else 0,
     if InstantTrafficAnalyzer.KNOWN_TLDS.any (fun t => endsWithList domain.data t.data) then 20
       else 0,
     if domain.data.length < 15 then 15 else 0,
     if domain.data.count '.' + 1 > 2 then -10 else 0,
     if containsList domain.data "shop".data then 5 else 0,
     if containsList domain.data "blog".data then 5 else 0]
  min (max features.sum 0) 100

theorem jsRound_nonneg {x : ℚ} (hx : 0 ≤ x) : 0 ≤ jsRound x := by
  unfold jsRound
  exact Int.le_floor.mpr (by push_cast; linarith)

theorem jsRound_mono {x y : ℚ} (h : x ≤ y) : jsRound x ≤ jsRound y :=
  Int.floor_le_floor (by linarith)

theorem estimateScore_nonneg (d : String) : 0 ≤ InstantTrafficAnalyzer.estimateScore d := by
  simp only [InstantTrafficAnalyzer.estimateScore]
  exact le_max_left 0 _

theorem estimateScore_le_55 (d : String) : InstantTrafficAnalyzer.estimateScore d ≤ 55 := by
  simp only [InstantTrafficAnalyzer.estimateScore]
  apply max_le (by norm_num)
  apply le_trans (min_le_left _ _)
  split_ifs <;> norm_num

theorem calculateTrafficScore_le_100 (r t : ℚ) (w : Bool) (mo : Option ℚ) :
    TrafficAnalyzer.calculateTrafficScore r t w mo ≤ 100 := by
  simp only [TrafficAnalyzer.calculateTrafficScore]
  exact min_le_right _ _

theorem calculateTrafficScore_nonneg (r t : ℚ) (w : Bool) (mo : Option ℚ)
    (hr : 0 ≤ r) (ht : 0 ≤ t) : 0 ≤ TrafficAnalyzer.calculateTrafficScore r t w mo := by
  simp only [TrafficAnalyzer.calculateTrafficScore]
  refine le_min (jsRound_nonneg ?_) (by norm_num)
  have h1 : (0 : ℚ) ≤ min (r * 40) 40 := le_min (by positivity) (by norm_num)
  have h2 : (0 : ℚ) ≤ min (t * 40) 40 := le_min (by positivity) (by norm_num)
  have h3 : (0 : ℚ) ≤ if w = true then 10 else 0 := by split_ifs <;> norm_num
  have h4 : (0 : ℚ) ≤
      match mo with
      | none => 0
      | some m => if m ≤ 1 then 10 else if m ≤ 3 then 5 else if m ≤ 6 then 2 else 0 := by
    rcases mo with _ | m
    · norm_num
    · simp only
      split_ifs <;> norm_num
  linarith

theorem comprehensive_le_100 (a f i m : ℚ) (hr hp : Bool) :
    AdvancedTrafficDetector.calculate_comprehensive_traffic_score a f i m hr hp ≤ 100 := by
  simp only [AdvancedTrafficDetector.calculate_comprehensive_traffic_score]
  exact min_le_right _ _

theorem comprehensive_nonneg (a f i m : ℚ) (hr hp : Bool)
    (ha : 0 ≤ a) (hf : 0 ≤ f) (hi : 0 ≤ i) (hm : 0 ≤ m) :
    0 ≤ AdvancedTrafficDetector.calculate_comprehensive_traffic_score a f i m hr hp := by
  simp only [AdvancedTrafficDetector.calculate_comprehensive_traffic_score]
  refine le_min ?_ (by norm_num)
  have h1 : (0 : ℚ) ≤ min (a * (3/2)) 15 := le_min (by positivity) (by norm_num)
  have h2 : (0 : ℚ) ≤ min (f * 5) 10 := le_min (by positivity) (by norm_num)
  have h3 : (0 : ℚ) ≤ min (i * (1/2)) 30 := le_min (by positivity) (by norm_num)
  have h4 : (0 : ℚ) ≤ min (m * 2) 25 := le_min (by positivity) (by norm_num)
  have h5 : (0 : ℚ) ≤ if hr = true then 10 else 0 := by split_ifs <;> norm_num
  have h6 : (0 : ℚ) ≤ if hp = true then 10 else 0 := by split_ifs <;> norm_num
  linarith

theorem jsRound_le {x : ℚ} {n : ℤ} (h : x + 1/2 < n + 1) : jsRound x ≤ n := by
  unfold jsRound
  have hlt : x + 1/2 < ((n + 1 : ℤ) : ℚ) := by push_cast; linarith
  have := Int.floor_lt.mpr hlt
  omega

theorem hybrid_score_nonneg (rand : ℕ → ℕ) (now d : String) (b : Bool) :
    0 ≤ (HybridAnalyzer.analyze rand now d b).traffic_score := by
  have h0 := estimateScore_nonneg d
  have hq : (0 : ℚ) ≤ (InstantTrafficAnalyzer.estimateScore d : ℚ) := by exact_mod_cast h0
  cases b <;>
    simp only [HybridAnalyzer.analyze, InstantTrafficAnalyzer.analyze] <;>
    exact jsRound_nonneg (by norm_num; linarith)

theorem hybrid_score_le_100 (rand : ℕ → ℕ) (now d : String) (b : Bool) :
    (HybridAnalyzer.analyze rand now d b).traffic_score ≤ 100 := by
  have h55 := estimateScore_le_55 d
  have hq : (InstantTrafficAnalyzer.estimateScore d : ℚ) ≤ 55 := by exact_mod_cast h55
  cases b <;>
    simp only [HybridAnalyzer.analyze, InstantTrafficAnalyzer.analyze] <;>
    exact jsRound_le (by norm_num; linarith)

theorem startsWithList_iff (pat : List Char) : ∀ hay : List Char,
    startsWithList hay pat = true ↔ ∃ t, hay = pat ++ t := by
  induction pat with
  | nil =>
    intro hay
    simp only [startsWithList, List.nil_append]
    exact ⟨fun _ => ⟨hay, rfl⟩, fun _ => trivial⟩
  | cons p ps ih =>
    intro hay
    cases hay with
    | nil => simp [startsWithList]
    | cons x xs =>
      simp only [startsWithList, Bool.and_eq_true, beq_iff_eq, ih, List.cons_append]
      constructor
      · rintro ⟨hx, t, ht⟩
        exact ⟨t, by rw [hx, ht]⟩
      · rintro ⟨t, ht⟩
        injection ht with h1 h2
        exact ⟨h1, t, h2⟩

theorem containsList_iff (pat : List Char) : ∀ hay : List Char,
    containsList hay pat = true ↔ ∃ pre suf, hay = pre ++ pat ++ suf := by
  intro hay
  induction hay with
  | nil =>
    simp only [containsList, startsWithList_iff]
    constructor
    · rintro ⟨t, ht⟩
      exact ⟨[], t, by simpa using ht⟩
    · rintro ⟨pre, suf, h⟩
      have h' : pre ++ (pat ++ suf) = [] := by rw [← List.append_assoc]; exact h.symm
      rcases List.append_eq_nil.mp h' with ⟨hpre, hrest⟩
      rcases List.append_eq_nil.mp hrest with ⟨hpat, hsuf⟩
      exact ⟨[], by simp [hpat]⟩
  | cons x xs ih =>
    simp only [containsList, Bool.or_eq_true, startsWithList_iff, ih]
    constructor
    · rintro (⟨t, ht⟩ | ⟨pre, suf, h⟩)
      · exact ⟨[], t, by simpa using ht⟩
      · exact ⟨x :: pre, suf, by simp [h]⟩
    · rintro ⟨pre, suf, h⟩
      cases pre with
      | nil => exact Or.inl ⟨suf, by simpa using h⟩
      | cons y ys =>
        rw [List.cons_append, List.cons_append] at h
        injection h with h1 h2
        exact Or.inr ⟨ys, suf, by rw [h2, List.append_assoc]⟩

theorem containsList_trans {a b c : List Char} (h1 : containsList a b = true)
    (h2 : containsList b c = true) : containsList a c = true := by
  rw [containsList_iff] at h1 h2 ⊢
  obtain ⟨p1, s1, ha⟩ := h1
  obtain ⟨p2, s2, hb⟩ := h2
  exact ⟨p1 ++ p2, s2 ++ s1, by rw [ha, hb]; simp [List.append_assoc]⟩

theorem parkingSigns_lower {s : String} (hs : s ∈ AdvancedTrafficDetector.parkingSigns) :
    toLowerList s.data = s.data := by
  fin_cases hs <;> decide

theorem analyzeBatch_eq_map (f : String → DomainAnalysis) (l : List String) :
    HybridAnalyzer.analyzeBatch f l = l.map f := by
  induction l using HybridAnalyzer.analyzeBatch.induct f with
  | case1 => simp [HybridAnalyzer.analyzeBatch]
  | case2 d ds ih =>
    rw [HybridAnalyzer.analyzeBatch]
    rw [ih, ← List.map_append, List.take_append_drop]

/-- Claim C1 (amended): every record produced by the analyzer variants has
`traffic_score` in `[0, 100]`; the Scheme B aggregator stays in `[0, 100]`
for probe-shaped inputs of any magnitude.  (The aggregators cap only the top
at 100, so the `[0, 100]` guarantee needs non-negative probe inputs — the
counterexample shows a negative input escapes below 0.) -/
theorem analyzer_traffic_score_in_bounds :
    (∀ (rand : ℕ → ℕ) (now d : String),
        0 ≤ (InstantTrafficAnalyzer.analyze rand now d).traffic_score ∧
        (InstantTrafficAnalyzer.analyze rand now d).traffic_score ≤ 100) ∧
    (∀ (rand : ℕ → ℕ) (now d : String) (b : Bool),
        0 ≤ (HybridAnalyzer.analyze rand now d b).traffic_score ∧
        (HybridAnalyzer.analyze rand now d b).traffic_score ≤ 100) ∧
    (∀ (rand : ℕ → ℕ) (now : String) (dns : DNSStatus) (arch : ArchiveData),
        0 ≤ (TrafficAnalyzer.analyzeDomain rand now dns arch).traffic_score ∧
        (TrafficAnalyzer.analyzeDomain rand now dns arch).traffic_score ≤ 100) ∧
    (∀ (recent indexed mx spf dmarc : ℕ) (hr hp : Bool),
        0 ≤ AdvancedTrafficDetector.calculate_comprehensive_traffic_score
              ((AdvancedTrafficDetector.checkArchiveFrequency recent).1 : ℚ)
              (AdvancedTrafficDetector.checkArchiveFrequency recent).2
              (indexed : ℚ)
              (AdvancedTrafficDetector.checkDnsMailConfiguration mx spf dmarc) hr hp ∧
        AdvancedTrafficDetector.calculate_comprehensive_traffic_score
              ((AdvancedTrafficDetector.checkArchiveFrequency recent).1 : ℚ)
              (AdvancedTrafficDetector.checkArchiveFrequency recent).2
              (indexed : ℚ)
              (AdvancedTrafficDetector.checkDnsMailConfiguration mx spf dmarc) hr hp ≤ 100) := by
  refine ⟨?_, ?_, ?_, ?_⟩
  · intro rand now d
    exact ⟨estimateScore_nonneg d, (estimateScore_le_55 d).trans (by norm_num)⟩
  · intro rand now d b
    exact ⟨hybrid_score_nonneg rand now d b, hybrid_score_le_100 rand now d b⟩
  · intro rand now dns arch
    constructor
    · exact calculateTrafficScore_nonneg _ _ _ _ (by positivity) (by positivity)
    · exact calculateTrafficScore_le_100 _ _ _ _
  · intro recent indexed mx spf dmarc hr hp
    constructor
    · refine comprehensive_nonneg _ _ _ _ _ _ (by positivity) ?_ (by positivity) ?_
      · show (0 : ℚ) ≤ (recent : ℚ) / 12
        positivity
      · show (0 : ℚ) ≤ (mx : ℚ) * 2 + (spf : ℚ) * (3/2) + (dmarc : ℚ) * (3/2)
        positivity
    · exact comprehensive_le_100 _ _ _ _ _ _

/-- Claim C1 counterexample: the Scheme A aggregator applied to a negative
`recentSnapshots` sub-component returns -40, outside `[0, 100]` — the code
clamps only the top with `Math.min(..., 100)`, never the bottom. -/
theorem schemeA_negative_input_goes_negative :
    TrafficAnalyzer.calculateTrafficScore (-1) 0 false none = -40 ∧
    TrafficAnalyzer.calculateTrafficScore (-1) 0 false none < 0 := by
  have h : TrafficAnalyzer.calculateTrafficScore (-1) 0 false none = -40 := by
    norm_num [TrafficAnalyzer.calculateTrafficScore, jsRound, min_def]
  exact ⟨h, by rw [h]; norm_num⟩

/-- Claim C2 (amended): when every probe fails, each probe degrades to its
fallback and `analyzeDomain` returns a complete record with all numeric
fields 0 — but with `status = "available"` (derived from the DNS fallback),
not `"error"`; the error status only arises from the top-level catch. -/
theorem all_probes_fail_zero_record :
    ∀ (rand : ℕ → ℕ) (now : String),
      TrafficAnalyzer.analyzeDomain rand now TrafficAnalyzer.checkDNSFallback
          TrafficAnalyzer.checkArchiveHistoryFallback =
        { traffic_score := 0, estimated_traffic := 0, archive_snapshots := 0,
          last_checked := now, status := "available" } := by
  intro rand now
  have hscore : TrafficAnalyzer.calculateTrafficScore 0 0 false none = 0 := by
    norm_num [TrafficAnalyzer.calculateTrafficScore, jsRound, min_def]
  simp [TrafficAnalyzer.analyzeDomain, TrafficAnalyzer.checkDNSFallback,
        TrafficAnalyzer.checkArchiveHistoryFallback, hscore, TrafficAnalyzer.estimateTraffic]

/-- Claim C2 counterexample: with every probe failed, the orchestrator's
record carries `status = "available"`, not the claimed `"error"`. -/
theorem all_probes_fail_status_available_not_error :
    (TrafficAnalyzer.analyzeDomain (fun _ => 0) "2025-01-01T00:00:00.000Z"
        TrafficAnalyzer.checkDNSFallback TrafficAnalyzer.checkArchiveHistoryFallback).status =
      "available" ∧
    (TrafficAnalyzer.analyzeDomain (fun _ => 0) "2025-01-01T00:00:00.000Z"
        TrafficAnalyzer.checkDNSFallback TrafficAnalyzer.checkArchiveHistoryFallback).status ≠
      "error" := by
  constructor <;>
    simp [TrafficAnalyzer.analyzeDomain, TrafficAnalyzer.checkDNSFallback]

/-- Claim C3 (amended): both schemes cap each sub-component and clamp the
total at 100 (and at 0 given non-negative inputs); Scheme A additionally
rounds, so its output is an integer, while Scheme B performs no rounding
and its output can be fractional. -/
theorem aggregator_caps_and_clamps :
    (∀ (r t : ℚ) (w : Bool) (mo : Option ℚ),
        TrafficAnalyzer.calculateTrafficScore r t w mo ≤ 100) ∧
    (∀ (r t : ℚ) (w : Bool) (mo : Option ℚ), 0 ≤ r → 0 ≤ t →
        0 ≤ TrafficAnalyzer.calculateTrafficScore r t w mo) ∧
    (∀ (a f i m : ℚ) (hr hp : Bool),
        AdvancedTrafficDetector.calculate_comprehensive_traffic_score a f i m hr hp ≤ 100) ∧
    (∀ (a f i m : ℚ) (hr hp : Bool), 0 ≤ a → 0 ≤ f → 0 ≤ i → 0 ≤ m →
        0 ≤ AdvancedTrafficDetector.calculate_comprehensive_traffic_score a f i m hr hp) :=
  ⟨calculateTrafficScore_le_100,
   fun r t w mo hr ht => calculateTrafficScore_nonneg r t w mo hr ht,
   comprehensive_le_100,
   fun a f i m hr hp ha hf hi hm => comprehensive_nonneg a f i m hr hp ha hf hi hm⟩

/-- Claim C3 witness: the bounds at a concrete input with all hypotheses
discharged. -/
theorem aggregator_caps_and_clamps_witness :
    TrafficAnalyzer.calculateTrafficScore 2 3 true (some 2) ≤ 100 ∧
    0 ≤ TrafficAnalyzer.calculateTrafficScore 2 3 true (some 2) ∧
    AdvancedTrafficDetector.calculate_comprehensive_traffic_score 20 4 100 10 true true ≤ 100 ∧
    0 ≤ AdvancedTrafficDetector.calculate_comprehensive_traffic_score 20 4 100 10 true true :=
  ⟨aggregator_caps_and_clamps.1 2 3 true (some 2),
   aggregator_caps_and_clamps.2.1 2 3 true (some 2) (by norm_num) (by norm_num),
   aggregator_caps_and_clamps.2.2.1 20 4 100 10 true true,
   aggregator_caps_and_clamps.2.2.2 20 4 100 10 true true
     (by norm_num) (by norm_num) (by norm_num) (by norm_num)⟩

/-- Claim C3 counterexample: Scheme B does not round — one recent archive
snapshot (frequency 1/12) with every other signal zero yields the
non-integer score 23/12. -/
theorem schemeB_fractional_output :
    AdvancedTrafficDetector.calculate_comprehensive_traffic_score 1 (1/12) 0 0 false false =
      23/12 ∧
    ¬ ∃ z : ℤ,
        AdvancedTrafficDetector.calculate_comprehensive_traffic_score 1 (1/12) 0 0 false false =
          (z : ℚ) := by
  have h : AdvancedTrafficDetector.calculate_comprehensive_traffic_score 1 (1/12) 0 0 false false
      = 23/12 := by
    norm_num [AdvancedTrafficDetector.calculate_comprehensive_traffic_score, min_def]
  refine ⟨h, ?_⟩
  rintro ⟨z, hz⟩
  rw [h] at hz
  field_simp at hz
  have hz' : (23 : ℤ) = z * 12 := by exact_mod_cast hz
  omega

/-- Claim C4 (amended): the two TypeScript estimators follow the spec's
bucket table exactly (and are the same function); the claim fails for the
third estimator in `trafficDetector.js`, which uses a different table (see
the counterexample). -/
theorem estimator_bucket_table :
    (∀ rand : ℕ → ℕ, (∀ k, 0 < k → rand k < k) → ∀ score : ℤ,
      (90 ≤ score →
        15000 ≤ TrafficAnalyzer.estimateTraffic rand score ∧
        TrafficAnalyzer.estimateTraffic rand score ≤ 19999) ∧
      (80 ≤ score → score < 90 →
        10000 ≤ TrafficAnalyzer.estimateTraffic rand score ∧
        TrafficAnalyzer.estimateTraffic rand score ≤ 14999) ∧
      (70 ≤ score → score < 80 →
        5000 ≤ TrafficAnalyzer.estimateTraffic rand score ∧
        TrafficAnalyzer.estimateTraffic rand score ≤ 9999) ∧
      (60 ≤ score → score < 70 →
        2000 ≤ TrafficAnalyzer.estimateTraffic rand score ∧
        TrafficAnalyzer.estimateTraffic rand score ≤ 4999) ∧
      (50 ≤ score → score < 60 →
        1000 ≤ TrafficAnalyzer.estimateTraffic rand score ∧
        TrafficAnalyzer.estimateTraffic rand score ≤ 1999) ∧
      (40 ≤ score → score < 50 →
        500 ≤ TrafficAnalyzer.estimateTraffic rand score ∧
        TrafficAnalyzer.estimateTraffic rand score ≤ 999) ∧
      (30 ≤ score → score < 40 →
        200 ≤ TrafficAnalyzer.estimateTraffic rand score ∧
        TrafficAnalyzer.estimateTraffic rand score ≤ 499) ∧
      (20 ≤ score → score < 30 →
        50 ≤ TrafficAnalyzer.estimateTraffic rand score ∧
        TrafficAnalyzer.estimateTraffic rand score ≤ 199) ∧
      (10 ≤ score → score < 20 → TrafficAnalyzer.estimateTraffic rand score ≤ 49) ∧
      (score < 10 → TrafficAnalyzer.estimateTraffic rand score = 0)) ∧
    (∀ (rand : ℕ → ℕ) (score : ℤ),
      InstantTrafficAnalyzer.estimateTraffic rand score =
        TrafficAnalyzer.estimateTraffic rand score) := by
  constructor
  · intro rand hrand score
    have h1 := hrand 5000 (by norm_num)
    have h2 := hrand 3000 (by norm_num)
    have h3 := hrand 1000 (by norm_num)
    have h4 := hrand 500 (by norm_num)
    have h5 := hrand 300 (by norm_num)
    have h6 := hrand 150 (by norm_num)
    have h7 := hrand 50 (by norm_num)
    unfold TrafficAnalyzer.estimateTraffic
    split_ifs <;> omega
  · intro rand score
    rfl

/-- Claim C4 witness: the table at score 95 with a concrete valid jitter
source. -/
theorem estimator_bucket_table_witness :
    15000 ≤ TrafficAnalyzer.estimateTraffic (fun k => k - 1) 95 ∧
    TrafficAnalyzer.estimateTraffic (fun k => k - 1) 95 ≤ 19999 :=
  (estimator_bucket_table.1 (fun k => k - 1) (fun k hk => Nat.sub_lt hk Nat.one_pos) 95).1
    (by norm_num)

/-- Claim C4 counterexample: at score 85 the `trafficDetector.js` estimator
returns 5000 (its `>80` bucket is 5000 + jitter), below the 10000 base the
claimed table demands for scores in `[80, 90)`. -/
theorem detector_estimator_violates_table :
    AdvancedTrafficDetector.estimated_traffic (fun _ => 0) 85 = 5000 ∧
    AdvancedTrafficDetector.estimated_traffic (fun _ => 0) 85 < 10000 := by
  have h : AdvancedTrafficDetector.estimated_traffic (fun _ => 0) 85 = 5000 := by
    norm_num [AdvancedTrafficDetector.estimated_traffic]
  exact ⟨h, by rw [h]; norm_num⟩

/-- Claim C5 (amended): the orchestrator's status is probe-derived
(registered/available, error from the top-level catch), all within the
spec's five-value set; but the persistence handler overwrites status with
the literal "available", and the store's check constraint allows only
{available, pending, registered, expired} — "error" is rejected. -/
theorem status_derivation_and_persistence :
    (∀ (rand : ℕ → ℕ) (now : String) (dns : DNSStatus) (arch : ArchiveData),
        (TrafficAnalyzer.analyzeDomain rand now dns arch).status = "registered" ∨
        (TrafficAnalyzer.analyzeDomain rand now dns arch).status = "available") ∧
    (∀ now : String, (TrafficAnalyzer.errorRecord now).status = "error") ∧
    (∀ (a : TrafficAnalysisRecord) (now : String),
        (analyzeDomainHandlerUpdate a now).status = "available") ∧
    domainsStatusCheck "available" = true ∧
    domainsStatusCheck "error" = false := by
  refine ⟨?_, fun _ => rfl, fun _ _ => rfl, by decide, by decide⟩
  intro rand now dns arch
  by_cases h : dns.hasNameservers <;> simp [TrafficAnalyzer.analyzeDomain, h]

/-- Claim C5 counterexample: a probe outcome that derives "registered" is
persisted by the `analyze-domain` handler as "available" — the persisted
status does not reflect the probe-derived value. -/
theorem handler_overwrites_probe_status :
    (TrafficAnalyzer.analyzeDomain (fun _ => 0) "t"
        { hasNameservers := true, hasWebsite := true }
        TrafficAnalyzer.checkArchiveHistoryFallback).status = "registered" ∧
    (analyzeDomainHandlerUpdate
        (TrafficAnalyzer.analyzeDomain (fun _ => 0) "t"
          { hasNameservers := true, hasWebsite := true }
          TrafficAnalyzer.checkArchiveHistoryFallback) "t2").status = "available" ∧
    ("available" : String) ≠ "registered" :=
  ⟨by simp [TrafficAnalyzer.analyzeDomain], rfl, by decide⟩

/-- Claim C6 (amended): `estimated_traffic` is non-negative everywhere and
never computed from raw probe values; in `TrafficAnalyzer` and
`InstantTrafficAnalyzer` it is the estimator applied to the record's own
`traffic_score`, but in `HybridAnalyzer` it is the estimator applied to the
pre-adjustment instant score, so records with equal final `traffic_score`
can carry differently distributed `estimated_traffic`. -/
theorem estimated_traffic_derivation :
    (∀ (rand : ℕ → ℕ) (now : String) (dns : DNSStatus) (arch : ArchiveData),
        (TrafficAnalyzer.analyzeDomain rand now dns arch).estimated_traffic =
          TrafficAnalyzer.estimateTraffic rand
            (TrafficAnalyzer.analyzeDomain rand now dns arch).traffic_score) ∧
    (∀ (rand : ℕ → ℕ) (now d : String),
        (InstantTrafficAnalyzer.analyze rand now d).estimated_traffic =
          InstantTrafficAnalyzer.estimateTraffic rand
            (InstantTrafficAnalyzer.analyze rand now d).traffic_score) ∧
    (∀ (rand : ℕ → ℕ) (now d : String) (b : Bool),
        (HybridAnalyzer.analyze rand now d b).estimated_traffic =
          InstantTrafficAnalyzer.estimateTraffic rand
            (InstantTrafficAnalyzer.estimateScore d)) :=
  ⟨fun _ _ _ _ => rfl, fun _ _ _ => rfl, fun _ _ _ _ => rfl⟩

/-- Claim C6 counterexample: two hybrid analyses sharing the same jitter
source end with the same `traffic_score` (8) yet different
`estimated_traffic` (7 vs 0), because the estimate came from the differing
instant scores (10 with the 0.8 DNS factor vs 5 with the 1.5 factor). -/
theorem equal_score_different_estimated_traffic :
    (HybridAnalyzer.analyze (fun _ => 7) "t" "verylongdomain2024.xyz" false).traffic_score =
      (HybridAnalyzer.analyze (fun _ => 7) "t" "longdomainwithshop.xyz" true).traffic_score ∧
    (HybridAnalyzer.analyze (fun _ => 7) "t" "verylongdomain2024.xyz" false).estimated_traffic ≠
      (HybridAnalyzer.analyze (fun _ => 7) "t" "longdomainwithshop.xyz" true).estimated_traffic := by
  have ha : InstantTrafficAnalyzer.estimateScore "verylongdomain2024.xyz" = 10 := by decide
  have hb : InstantTrafficAnalyzer.estimateScore "longdomainwithshop.xyz" = 5 := by decide
  constructor
  · simp only [HybridAnalyzer.analyze, InstantTrafficAnalyzer.analyze, ha, hb, jsRound]
    norm_num
  · simp only [HybridAnalyzer.analyze, InstantTrafficAnalyzer.analyze, ha, hb,
      InstantTrafficAnalyzer.estimateTraffic]
    norm_num

/-- Claim C7: the heuristic lexical scorer is exactly the spec's clamped
feature sum, and "myshop2024.com" scores 10 + 20 + 15 + 5 = 50, with every
intermediate feature individually checked. -/
theorem lexical_scorer_correct :
    (∀ d : String, InstantTrafficAnalyzer.estimateScore d = lexicalScoreSpec d) ∧
    InstantTrafficAnalyzer.estimateScore "myshop2024.com" = 50 ∧
    hasFourConsecutiveDigits "myshop2024.com".data = true ∧
    InstantTrafficAnalyzer.KNOWN_TLDS.any
      (fun t => endsWithList "myshop2024.com".data t.data) = true ∧
    "myshop2024.com".data.length < 15 ∧
    "myshop2024.com".data.count '.' + 1 ≤ 2 ∧
    containsList "myshop2024.com".data "shop".data = true ∧
    containsList "myshop2024.com".data "blog".data = false := by
  refine ⟨?_, by decide, by decide, by decide, by decide, by decide, by decide, by decide⟩
  intro d
  simp only [InstantTrafficAnalyzer.estimateScore, lexicalScoreSpec, List.sum_cons,
    List.sum_nil, add_zero]
  split_ifs <;> decide

/-- Claim C8: parking detection fires exactly when the body contains some
phrase of the fixed list as a case-insensitive substring; in particular any
letter-casing of a body containing "This domain is for sale" fires. -/
theorem parking_detection_characterization :
    (∀ body : String,
        AdvancedTrafficDetector.checkForParkedDomainSigns body = true ↔
          ∃ s ∈ AdvancedTrafficDetector.parkingSigns,
            containsList (toLowerList body.data) (toLowerList s.data) = true) ∧
    (∀ body : String,
        containsList (toLowerList body.data) (toLowerList "This domain is for sale".data) = true →
        AdvancedTrafficDetector.checkForParkedDomainSigns body = true) := by
  constructor
  · intro body
    unfold AdvancedTrafficDetector.checkForParkedDomainSigns
    rw [List.any_eq_true]
    constructor
    · rintro ⟨s, hs, hc⟩
      exact ⟨s, hs, by rw [parkingSigns_lower hs]; exact hc⟩
    · rintro ⟨s, hs, hc⟩
      rw [parkingSigns_lower hs] at hc
      exact ⟨s, hs, hc⟩
  · intro body h
    have hphrase : toLowerList "This domain is for sale".data =
        "this domain is for sale".data := by decide
    rw [hphrase] at h
    have hsub : containsList "this domain is for sale".data "domain is for sale".data = true := by
      decide
    have hsign : containsList (toLowerList body.data) "domain is for sale".data = true :=
      containsList_trans h hsub
    unfold AdvancedTrafficDetector.checkForParkedDomainSigns
    rw [List.any_eq_true]
    exact ⟨"domain is for sale", by simp [AdvancedTrafficDetector.parkingSigns], hsign⟩

/-- Claim C8 witness: the detector fires on the all-caps body
"THIS DOMAIN IS FOR SALE". -/
theorem parking_detection_characterization_witness :
    AdvancedTrafficDetector.checkForParkedDomainSigns "THIS DOMAIN IS FOR SALE" = true :=
  parking_detection_characterization.2 "THIS DOMAIN IS FOR SALE" (by decide)

/-- Claim C9: batch analysis over groups of 3 returns exactly the per-domain
analyses in input order — it equals the plain map, preserves length, and its
i-th element is the analysis of the i-th input domain. -/
theorem analyzeBatch_preserves_order_and_length :
    ∀ (f : String → DomainAnalysis) (l : List String),
      HybridAnalyzer.analyzeBatch f l = l.map f ∧
      (HybridAnalyzer.analyzeBatch f l).length = l.length ∧
      ∀ i : ℕ, (HybridAnalyzer.analyzeBatch f l)[i]? = (l[i]?).map f := by
  intro f l
  have h := analyzeBatch_eq_map f l
  exact ⟨h, by rw [h, List.length_map], fun i => by rw [h, List.getElem?_map]⟩

/-- Claim C10: the instant analyzer always returns status "available" with
all network-signal fields at their fixed defaults; only domain,
traffic_score, estimated_traffic and last_checked depend on the input. -/
theorem instant_analyze_fixed_defaults :
    ∀ (rand : ℕ → ℕ) (now d : String),
      (InstantTrafficAnalyzer.analyze rand now d).status = "available" ∧
      (InstantTrafficAnalyzer.analyze rand now d).archive_snapshots = 0 ∧
      (InstantTrafficAnalyzer.analyze rand now d).indexed_pages = 0 ∧
      (InstantTrafficAnalyzer.analyze rand now d).social_mentions = 0 ∧
      (InstantTrafficAnalyzer.analyze rand now d).web_presence = 0 ∧
      (InstantTrafficAnalyzer.analyze rand now d).mail_score = 0 ∧
      (InstantTrafficAnalyzer.analyze rand now d).has_redirect = false ∧
      (InstantTrafficAnalyzer.analyze rand now d).redirect_url = none ∧
      (InstantTrafficAnalyzer.analyze rand now d).is_parked = false ∧
      (InstantTrafficAnalyzer.analyze rand now d).domain = d ∧
      (InstantTrafficAnalyzer.analyze rand now d).last_checked = now ∧
      (InstantTrafficAnalyzer.analyze rand now d).traffic_score =
        InstantTrafficAnalyzer.estimateScore d ∧
      (InstantTrafficAnalyzer.analyze rand now d).estimated_traffic =
        InstantTrafficAnalyzer.estimateTraffic rand (InstantTrafficAnalyzer.estimateScore d) :=
  fun _ _ _ =>
    ⟨rfl, rfl, rfl, rfl, rfl, rfl, rfl, rfl, rfl, rfl, rfl, rfl, rfl⟩
